import Mathlib

/-!
Verification of the pipeline-aggregation core of the GitLab pipeline dashboard
(`src/main.py`).

The source is a single Python file.  Its effectful parts are shallowly embedded
as follows:

* HTTP fetches (`requests.get` + `raise_for_status` + `.json()`) are abstracted
  as explicit result values of type `Except String _`: an `.ok` value is the
  decoded JSON list, an `.error` value is a raised `requests.RequestException`.
  Every wrapper function of `GitLabDashboard` takes the fetch outcome (or a
  fetch function) as an explicit parameter.
* The `st.error(...)` call inside `get_project_pipelines` (which surfaces the
  failing project's id to the user) is modelled as an explicit second return
  component: the reported failed project id, if any.  The collection of these
  ids over the aggregation loop plays the role the spec calls
  `failed_projects`.
* Python `datetime` instants are modelled as `Int` epoch seconds;
  `datetime.fromisoformat` and `strftime` are standard-library functions
  external to this repository, so they are taken as parameters
  (`fromiso : String → Option Int`, `strfmt : Int → String`); a parse failure
  (Python `ValueError`) is `none`.
* Python `timedelta` normalisation is floored divmod: `delta.days` is
  `floor(total / 86400)` and `delta.seconds` is `total mod 86400`.  For the
  positive divisor 86400 Lean's Euclidean `Int` division `/` and `%` coincide
  with Python's floored divmod, so they are used directly.
* `pandas` dataframe operations are modelled on plain lists of rows:
  `df[df[c] == v]` is `List.filter`, `len` is `List.length`,
  `sort_values(c, ascending=False)` is a sort by that column descending
  (pandas' quicksort fixes no tie order, so theorems only use properties
  common to every correct descending sort), `head(10)` is `List.take 10`.
-/

namespace GitLabPipelineApp

/-- A project record as returned by `GET /groups/{id}/projects` in simple
mode; `main` reads `project['id']` and `project['name']`. -/
structure Project where
  id : Nat
  name : String
deriving DecidableEq

/-- The `user` sub-object of a raw pipeline record (`user.name` is read). -/
structure RawUser where
  name : String
deriving DecidableEq

/-- A raw pipeline record as returned by `GET /projects/{id}/pipelines`.
Fields accessed with `pipeline['k']` are mandatory, fields accessed with
`pipeline.get('k', default)` are optional. -/
structure RawPipeline where
  id : Nat
  status : String
  ref : String
  created_at : Option String
  updated_at : Option String
  web_url : Option String
  user : Option RawUser
deriving DecidableEq

/-- A raw job record as returned by
`GET /projects/{id}/pipelines/{pipeline_id}/jobs`. -/
structure Job where
  id : Nat
  name : String
  status : String
deriving DecidableEq

/-- One entry of `all_pipelines_data` as built in `main` (src/main.py lines
173-183).  Field names mirror the dict keys (`'Project'` → `project_name`,
`'Project ID'` → `project_id`, `'Pipeline ID'` → `pipeline_id`, `'Status'` →
`status`, `'Branch'` → `branch`, `'Created'` → `created`, `'Updated'` →
`updated`, `'Web URL'` → `web_url`, `'User'` → `user_name`). -/
structure Row where
  project_name : String
  project_id : Nat
  pipeline_id : Nat
  status : String
  branch : String
  created : String
  updated : String
  web_url : String
  user_name : String
deriving DecidableEq

/-- The dict appended to `all_pipelines_data` for one pipeline of one project
(src/main.py lines 173-183). -/
def mkRow (project : Project) (pipeline : RawPipeline) : Row :=
  { project_name := project.name
    project_id := project.id
    pipeline_id := pipeline.id
    status := pipeline.status
    branch := pipeline.ref
    created := pipeline.created_at.getD ""
    updated := pipeline.updated_at.getD ""
    web_url := pipeline.web_url.getD ""
    user_name :=
      match pipeline.user with
      | some u => u.name
      | none => "N/A" }

/-- `GitLabDashboard.get_group_projects` (src/main.py lines 15-26): on a fetch
error it shows `st.error` and returns the empty list; on success it returns
the decoded list. -/
def get_group_projects (groupFetch : Except String (List Project)) : List Project :=
  match groupFetch with
  | .ok projects => projects
  | .error _ => []

/-- `GitLabDashboard.get_project_pipelines` (src/main.py lines 28-39): on
success the decoded pipeline list and no error report; on a fetch error it
calls `st.error(f"Error fetching pipelines for project {project_id}")` and
returns `[]` — modelled as the empty list plus the reported failed id. -/
def get_project_pipelines (fetch : Nat → Except String (List RawPipeline))
    (project_id : Nat) : List RawPipeline × Option Nat :=
  match fetch project_id with
  | .ok ps => (ps, none)
  | .error _ => ([], some project_id)

/-- `GitLabDashboard.get_pipeline_jobs` (src/main.py lines 41-50): the decoded
job list on success, the empty list on a fetch error (the error is swallowed,
nothing is even displayed). -/
def get_pipeline_jobs (fetchJobs : Nat → Nat → Except String (List Job))
    (project_id pipeline_id : Nat) : List Job :=
  match fetchJobs project_id pipeline_id with
  | .ok js => js
  | .error _ => []

/-- `dt_string.replace('Z', '+00:00')` (src/main.py lines 58 and 69). -/
def pyReplaceZ (s : String) : String := s.replace "Z" "+00:00"

/-- `GitLabDashboard.format_datetime` (src/main.py lines 52-61).  The input is
`Option String` because Python's `if not dt_string` treats `None` and the
empty string alike.  `fromiso` models `datetime.fromisoformat` (`none` is a
raised `ValueError`), `strfmt` models `dt.strftime("%Y-%m-%d %H:%M:%S")`. -/
def format_datetime (fromiso : String → Option Int) (strfmt : Int → String)
    (dt_string : Option String) : String :=
  match dt_string with
  | none => "N/A"
  | some s =>
    if s = "" then "N/A"
    else
      match fromiso (pyReplaceZ s) with
      | some dt => strfmt dt
      | none => s

/-- The bucketing step of `GitLabDashboard.get_time_ago` (src/main.py lines
71-82) on the total elapsed seconds `delta = now - dt`.  Python's `timedelta`
stores `days = floor(delta / 86400)` and `seconds = delta mod 86400`; for the
positive divisor 86400 Lean's `Int` `/` and `%` (Euclidean) agree with
Python's floored divmod. -/
def timeAgoOfDelta (delta : Int) : String :=
  let days := delta / 86400
  let seconds := delta % 86400
  if days > 0 then toString days ++ " days ago"
  else if seconds > 3600 then toString (seconds / 3600) ++ " hours ago"
  else if seconds > 60 then toString (seconds / 60) ++ " minutes ago"
  else "Just now"

/-- `GitLabDashboard.get_time_ago` (src/main.py lines 63-84).  `now` models
`datetime.now(dt.tzinfo)` as epoch seconds; a parse failure or any other
exception in the `try` block yields `"N/A"`. -/
def get_time_ago (fromiso : String → Option Int) (now : Int)
    (dt_string : Option String) : String :=
  match dt_string with
  | none => "N/A"
  | some s =>
    if s = "" then "N/A"
    else
      match fromiso (pyReplaceZ s) with
      | some dt => timeAgoOfDelta (now - dt)
      | none => "N/A"

/-- `get_status_color` (src/main.py lines 86-98): `colors.get(status, '⚪')`
over the literal dict, written as the equivalent chain of key comparisons. -/
def get_status_color (status : String) : String :=
  if status = "success" then "🟢"
  else if status = "failed" then "🔴"
  else if status = "running" then "🔵"
  else if status = "pending" then "🟡"
  else if status = "canceled" then "⚪"
  else if status = "skipped" then "⚫"
  else if status = "created" then "🟡"
  else if status = "manual" then "🟠"
  else "⚪"

/-- The keys of the `colors` dict in `get_status_color`. -/
def knownStatuses : List String :=
  ["success", "failed", "running", "pending", "canceled", "skipped", "created", "manual"]

/-- Every glyph `get_status_color` can return (the dict values; `'⚪'` is also
the default for unrecognized statuses). -/
def glyphList : List String := ["🟢", "🔴", "🔵", "🟡", "⚪", "⚫", "🟠"]

/-- The aggregation loop of `main` (src/main.py lines 168-185): for each
project in order, fetch its pipelines via `get_project_pipelines` and append
one row per pipeline to `all_pipelines_data`; the second component collects
the failed project ids reported by `st.error` along the way.  (The progress
bar and the `per_page=5` page-size argument live inside the abstracted
`fetch`.) -/
def collect_pipelines (fetch : Nat → Except String (List RawPipeline)) :
    List Project → List Row × List Nat
  | [] => ([], [])
  | project :: rest =>
    let fetched := get_project_pipelines fetch project.id
    let tail := collect_pipelines fetch rest
    (fetched.1.map (mkRow project) ++ tail.1,
     (match fetched.2 with
      | some i => [i]
      | none => []) ++ tail.2)

/-- The rows a single project contributes to the aggregation. -/
def projRows (fetch : Nat → Except String (List RawPipeline))
    (project : Project) : List Row :=
  match fetch project.id with
  | .ok ps => ps.map (mkRow project)
  | .error _ => []

/-- The failed-project ids a single project contributes (at most its own). -/
def projFailed (fetch : Nat → Except String (List RawPipeline))
    (project : Project) : List Nat :=
  match fetch project.id with
  | .ok _ => []
  | .error _ => [project.id]

/-- Outcome of `main` after configuration is present (src/main.py lines
144-185): if the group project list is empty — in particular whenever the
group fetch itself errored — `main` shows "No projects found or unable to
access the group." and returns before any per-project fan-out; otherwise it
builds `all_pipelines_data`. -/
inductive MainOutcome where
  | aborted
  | dashboard (rows : List Row) (failed_projects : List Nat)
deriving DecidableEq

/-- `main` from the group fetch to the assembled aggregation (src/main.py
lines 147-185). -/
def mainAggregate (groupFetch : Except String (List Project))
    (fetch : Nat → Except String (List RawPipeline)) : MainOutcome :=
  let projects := get_group_projects groupFetch
  if projects.isEmpty then .aborted
  else
    let snap := collect_pipelines fetch projects
    .dashboard snap.1 snap.2

/-- The `'⏳ Pending'` metric of the overview tab (src/main.py line 209):
`len(df[df['Status'].isin(['pending', 'created'])])`. -/
def pending_count (rows : List Row) : Nat :=
  (rows.filter fun r => r.status == "pending" || r.status == "created").length

/-- The pending-pipelines view of tab 2 (src/main.py line 233):
rows with `Status in ['pending', 'created', 'running']`. -/
def pendingView (rows : List Row) : List Row :=
  rows.filter fun r =>
    r.status == "pending" || r.status == "created" || r.status == "running"

/-- Descending comparison on the `'Updated'` column, as a sort predicate:
`a` may precede `b` when `b.updated ≤ a.updated`. -/
def updatedDesc (a b : Row) : Bool := decide (b.updated ≤ a.updated)

/-- The recent-successes view of tab 3 (src/main.py lines 264-270): filter
`Status == 'success'`, `sort_values('Updated', ascending=False)`, `head(10)`. -/
def successView (rows : List Row) : List Row :=
  (((rows.filter fun r => r.status == "success").mergeSort updatedDesc).take 10)

/-! Concrete sample data used by witnesses and counterexamples. -/

/-- Sample project 1. -/
def P1c : Project := { id := 1, name := "A" }

/-- Sample project 2. -/
def P2c : Project := { id := 2, name := "B" }

/-- Sample project 3. -/
def P3c : Project := { id := 3, name := "C" }

/-- A sample raw pipeline. -/
def pipeA : RawPipeline :=
  { id := 10, status := "success", ref := "main",
    created_at := none, updated_at := none, web_url := none, user := none }

/-- A sample fetch outcome: project 2's fetch raises, every other project
returns one pipeline. -/
def sampleFetch : Nat → Except String (List RawPipeline) := fun i =>
  if i == 2 then .error "boom" else .ok [pipeA]

/-- A sample fetch outcome: project 1 has one pipeline, others have none. -/
def cfetch : Nat → Except String (List RawPipeline) := fun i =>
  if i == 1 then .ok [pipeA] else .ok []

/-- A jobs fetch that always raises. -/
def jobsFailFetch : Nat → Nat → Except String (List Job) := fun _ _ => .error "down"

/-- A timestamp parser that fails on every input (as `fromisoformat` does on
any non-ISO string such as "not-a-date"). -/
def noParse : String → Option Int := fun _ => none

/-! Helper lemmas. -/

/-- The aggregation loop is the concatenation of the per-project
contributions, in input order. -/
theorem collect_pipelines_eq (fetch : Nat → Except String (List RawPipeline))
    (projects : List Project) :
    collect_pipelines fetch projects =
      (projects.flatMap (projRows fetch), projects.flatMap (projFailed fetch)) := by
  induction projects with
  | nil => rfl
  | cons p rest ih =>
    cases h : fetch p.id <;>
      simp [collect_pipelines, get_project_pipelines, projRows, projFailed, h, ih]

/-! Claim theorems. -/

/-- C5: the status-to-glyph mapping is total — for every input string it
returns one of the fixed display glyphs, and any string that is not a key of
the colors dict gets the default glyph `'⚪'`. -/
theorem c5_status_totality (s : String) :
    get_status_color s ∈ glyphList ∧
    (s ∉ knownStatuses → get_status_color s = "⚪") := by
  unfold get_status_color
  split_ifs with h1 h2 h3 h4 h5 h6 h7 h8 <;>
    simp_all [knownStatuses, glyphList]

theorem c5_witness :
    get_status_color "weird_status" ∈ glyphList ∧
    get_status_color "weird_status" = "⚪" :=
  ⟨(c5_status_totality "weird_status").1,
   (c5_status_totality "weird_status").2 (by decide)⟩

/-- C6: when the pipeline-jobs fetch raises, `get_pipeline_jobs` returns the
empty job list instead of propagating the error (and, being a total function
into `List Job`, it never fails the enclosing view). -/
theorem c6_jobs_failure_empty
    (fetchJobs : Nat → Nat → Except String (List Job))
    (project_id pipeline_id : Nat) (e : String)
    (h : fetchJobs project_id pipeline_id = .error e) :
    get_pipeline_jobs fetchJobs project_id pipeline_id = [] := by
  simp [get_pipeline_jobs, h]

theorem c6_witness :
    jobsFailFetch 7 42 = Except.error "down" ∧
    get_pipeline_jobs jobsFailFetch 7 42 = [] :=
  ⟨rfl, c6_jobs_failure_empty jobsFailFetch 7 42 "down" rfl⟩

/-- C10: a missing timestamp (`None`) or the empty string makes both
`format_datetime` and `get_time_ago` return `"N/A"` (in particular
`format_datetime` does not return the original empty string). -/
theorem c10_missing_timestamp (fromiso : String → Option Int)
    (strfmt : Int → String) (now : Int) :
    format_datetime fromiso strfmt none = "N/A" ∧
    format_datetime fromiso strfmt (some "") = "N/A" ∧
    get_time_ago fromiso now none = "N/A" ∧
    get_time_ago fromiso now (some "") = "N/A" ∧
    ("N/A" : String) ≠ "" := by
  refine ⟨rfl, ?_, rfl, ?_, by decide⟩ <;> simp [format_datetime, get_time_ago]

/-- C8: on a nonempty input string that the timestamp parser rejects,
`format_datetime` returns the original string unchanged and `get_time_ago`
returns `"N/A"`; both are total functions, so neither ever throws. -/
theorem c8_unparseable_total (fromiso : String → Option Int)
    (strfmt : Int → String) (now : Int) (s : String)
    (hne : s ≠ "") (hparse : fromiso (pyReplaceZ s) = none) :
    format_datetime fromiso strfmt (some s) = s ∧
    get_time_ago fromiso now (some s) = "N/A" := by
  simp [format_datetime, get_time_ago, hne, hparse]

theorem c8_witness :
    (("not-a-date" : String) ≠ "" ∧ noParse (pyReplaceZ "not-a-date") = none) ∧
    (format_datetime noParse (fun _ => "") (some "not-a-date") = "not-a-date" ∧
     get_time_ago noParse 0 (some "not-a-date") = "N/A") :=
  ⟨⟨by decide, rfl⟩,
   c8_unparseable_total noParse (fun _ => "") 0 "not-a-date" (by decide) rfl⟩

/-- C2 counterexample: a timestamp parsed to exactly 3600 seconds before now
— the spec's own example, `2024-01-01T23:00:00Z` against now =
`2024-01-02T00:00:00Z` — yields `"60 minutes ago"`, not `"1 hours ago"`: the
code compares `delta.seconds > 3600` strictly, so the exact boundary stays in
the minutes bucket, contradicting the claim. -/
theorem c2_boundary_counterexample :
    get_time_ago (fun _ => some 0) 3600 (some "2024-01-01T23:00:00Z") =
      "60 minutes ago" ∧
    ("60 minutes ago" : String) ≠ "1 hours ago" := by
  constructor
  · rfl
  · decide

/-- C2 amended: for a parsed timestamp at elapsed distance `d ≥ 0` seconds
from now, the elapsed-time bucketing returns `"Just now"` when `d ≤ 60`,
`"N minutes ago"` with `N = floor(d/60)` when `61 ≤ d ≤ 3600`,
`"N hours ago"` with `N = floor(d/3600)` when `3601 ≤ d ≤ 86399`, and
`"N days ago"` with `N = floor(d/86400)` when `d ≥ 86400`; in particular the
exact boundary `d = 3600` yields `"60 minutes ago"`, and `d = 60` yields
`"Just now"`, because the code's comparisons are strict. -/
theorem c2_time_ago_amended (d : Int) (hd : 0 ≤ d) :
    (d ≤ 60 → timeAgoOfDelta d = "Just now") ∧
    (61 ≤ d → d ≤ 3600 → timeAgoOfDelta d = toString (d / 60) ++ " minutes ago") ∧
    (3601 ≤ d → d ≤ 86399 → timeAgoOfDelta d = toString (d / 3600) ++ " hours ago") ∧
    (86400 ≤ d → timeAgoOfDelta d = toString (d / 86400) ++ " days ago") := by
  refine ⟨?_, ?_, ?_, ?_⟩
  · intro h
    have h1 : d / 86400 = 0 := by omega
    have h2 : d % 86400 = d := by omega
    simp only [timeAgoOfDelta, h1, h2]
    rw [if_neg (by omega), if_neg (by omega), if_neg (by omega)]
  · intro h h'
    have h1 : d / 86400 = 0 := by omega
    have h2 : d % 86400 = d := by omega
    simp only [timeAgoOfDelta, h1, h2]
    rw [if_neg (by omega), if_neg (by omega), if_pos (by omega)]
  · intro h h'
    have h1 : d / 86400 = 0 := by omega
    have h2 : d % 86400 = d := by omega
    simp only [timeAgoOfDelta, h1, h2]
    rw [if_neg (by omega), if_pos (by omega)]
  · intro h
    have h1 : 0 < d / 86400 := by omega
    simp only [timeAgoOfDelta]
    rw [if_pos (by omega)]

theorem c2_amended_witness :
    (0 : Int) ≤ 3600 ∧
    (((3600 : Int) ≤ 60 → timeAgoOfDelta 3600 = "Just now") ∧
     (61 ≤ (3600 : Int) → (3600 : Int) ≤ 3600 →
        timeAgoOfDelta 3600 = toString ((3600 : Int) / 60) ++ " minutes ago") ∧
     (3601 ≤ (3600 : Int) → (3600 : Int) ≤ 86399 →
        timeAgoOfDelta 3600 = toString ((3600 : Int) / 3600) ++ " hours ago") ∧
     (86400 ≤ (3600 : Int) →
        timeAgoOfDelta 3600 = toString ((3600 : Int) / 86400) ++ " days ago")) :=
  ⟨by decide, c2_time_ago_amended 3600 (by decide)⟩

/-- C1: when exactly one project's pipeline fetch errors, the aggregation
loop still produces every other project's rows — the row collection equals
the one obtained from the batch without the failing project, so nothing is
aborted or truncated — and exactly that one project's id is reported failed. -/
theorem c1_single_failure_tolerance
    (fetch : Nat → Except String (List RawPipeline))
    (l1 l2 : List Project) (p : Project) (e : String)
    (hfail : fetch p.id = .error e)
    (hok : ∀ q ∈ l1 ++ l2, (fetch q.id).isOk) :
    (collect_pipelines fetch (l1 ++ p :: l2)).1 =
      (collect_pipelines fetch (l1 ++ l2)).1 ∧
    (collect_pipelines fetch (l1 ++ p :: l2)).2 = [p.id] := by
  have hrows : projRows fetch p = [] := by simp [projRows, hfail]
  have hfailp : projFailed fetch p = [p.id] := by simp [projFailed, hfail]
  have hnone : ∀ q ∈ l1 ++ l2, projFailed fetch q = [] := by
    intro q hq
    have hq2 := hok q hq
    cases h : fetch q.id with
    | ok ps => simp [projFailed, h]
    | error e2 => rw [h] at hq2; simp [Except.isOk, Except.toBool] at hq2
  have hl1 : l1.flatMap (projFailed fetch) = [] := by
    rw [List.flatMap_eq_nil_iff]
    intro q hq
    exact hnone q (List.mem_append_left _ hq)
  have hl2 : l2.flatMap (projFailed fetch) = [] := by
    rw [List.flatMap_eq_nil_iff]
    intro q hq
    exact hnone q (List.mem_append_right _ hq)
  constructor
  · rw [collect_pipelines_eq, collect_pipelines_eq]
    simp [hrows]
  · rw [collect_pipelines_eq]
    simp [hfailp, hl1, hl2]

theorem c1_witness :
    (sampleFetch P2c.id = Except.error "boom" ∧
     ∀ q ∈ [P1c] ++ [P3c], (sampleFetch q.id).isOk) ∧
    ((collect_pipelines sampleFetch ([P1c] ++ P2c :: [P3c])).1 =
       (collect_pipelines sampleFetch ([P1c] ++ [P3c])).1 ∧
     (collect_pipelines sampleFetch ([P1c] ++ P2c :: [P3c])).2 = [P2c.id]) :=
  ⟨⟨rfl, by decide⟩,
   c1_single_failure_tolerance sampleFetch [P1c] [P3c] P2c "boom" rfl (by decide)⟩

/-- C3 counterexample: with project 1 owning one pipeline, aggregating
`[P1, P1, P2]` does not equal aggregating `[P1, P2]` — the loop in `main`
iterates over the input list as given, fetching project 1 twice and emitting
its rows twice, so duplicate project ids are not deduplicated. -/
theorem c3_no_dedup_counterexample :
    collect_pipelines cfetch [P1c, P1c, P2c] ≠
      collect_pipelines cfetch [P1c, P2c] := by
  decide

/-- C3 amended: duplicate project ids are not deduplicated — the aggregation
processes every occurrence independently, so `[P1, P1, P2]` yields project
1's row and failed-id contributions twice, followed by project 2's, rather
than the `[P1, P2]` snapshot. -/
theorem c3_duplicates_fetched_twice
    (fetch : Nat → Except String (List RawPipeline)) (p1 p2 : Project) :
    collect_pipelines fetch [p1, p1, p2] =
      (projRows fetch p1 ++ projRows fetch p1 ++ projRows fetch p2,
       projFailed fetch p1 ++ projFailed fetch p1 ++ projFailed fetch p2) := by
  simp [collect_pipelines_eq]

/-- C4: a failure of the group project-list fetch itself is fatal — `main`
stops with the aborted outcome before any per-project fan-out — and that
outcome is distinct from the outcome of any run in which the group fetch
succeeded on a nonempty project list, however many per-project pipeline
fetches fail there. -/
theorem c4_group_failure_fatal
    (groupFetch : Except String (List Project))
    (fetch fetch2 : Nat → Except String (List RawPipeline))
    (e : String) (projects : List Project)
    (h : groupFetch = .error e) (hne : projects ≠ []) :
    mainAggregate groupFetch fetch = .aborted ∧
    mainAggregate (.ok projects) fetch2 ≠ mainAggregate groupFetch fetch := by
  subst h
  constructor
  · rfl
  · cases projects with
    | nil => exact absurd rfl hne
    | cons a l =>
      intro hcontra
      simp [mainAggregate, get_group_projects] at hcontra

theorem c4_witness :
    ((Except.error "nope" : Except String (List Project)) = Except.error "nope" ∧
     ([P2c] : List Project) ≠ []) ∧
    (mainAggregate (Except.error "nope") sampleFetch = MainOutcome.aborted ∧
     mainAggregate (Except.ok [P2c]) sampleFetch ≠
       mainAggregate (Except.error "nope") sampleFetch) :=
  ⟨⟨rfl, by decide⟩,
   c4_group_failure_fatal (Except.error "nope") sampleFetch sampleFetch
     "nope" [P2c] rfl (by decide)⟩

/-- The descending-updated comparison is transitive. -/
theorem updatedDesc_trans (a b c : Row)
    (hab : updatedDesc a b) (hbc : updatedDesc b c) : updatedDesc a c := by
  simp only [updatedDesc, decide_eq_true_eq] at *
  exact le_trans hbc hab

/-- The descending-updated comparison is total. -/
theorem updatedDesc_total (a b : Row) : updatedDesc a b || updatedDesc b a := by
  simp only [updatedDesc, Bool.or_eq_true, decide_eq_true_eq]
  exact le_total b.updated a.updated

/-- C7: the recent-successes view keeps only pipelines with status
`'success'`, shows at most 10 entries, and is the 10-entry prefix of a
descending-by-`updated` sort of exactly the success-filtered rows. -/
theorem c7_success_view (rows : List Row) :
    (successView rows).all (fun r => r.status == "success") = true ∧
    (successView rows).length ≤ 10 ∧
    ∃ sorted : List Row,
      sorted.Perm (rows.filter fun r => r.status == "success") ∧
      List.Pairwise (fun a b : Row => b.updated ≤ a.updated) sorted ∧
      successView rows = sorted.take 10 := by
  refine ⟨?_, ?_, ?_⟩
  · rw [List.all_eq_true]
    intro r hr
    simp only [successView] at hr
    have h1 : r ∈ (rows.filter fun r => r.status == "success").mergeSort updatedDesc :=
      List.mem_of_mem_take hr
    exact (List.mem_filter.mp (List.mem_mergeSort.mp h1)).2
  · simp only [successView]
    exact List.length_take_le _ _
  · refine ⟨(rows.filter fun r => r.status == "success").mergeSort updatedDesc,
      List.mergeSort_perm _ _, ?_, ?_⟩
    · have h := @List.sorted_mergeSort Row updatedDesc
        updatedDesc_trans updatedDesc_total
        (rows.filter fun r => r.status == "success")
      exact h.imp fun hx => of_decide_eq_true hx
    · rfl

/-- The length of the pending view splits as the pending metric plus the
number of running rows (the three status tests being mutually exclusive). -/
theorem pendingView_length_eq (rows : List Row) :
    (pendingView rows).length =
      pending_count rows + rows.countP (fun r => r.status == "running") := by
  induction rows with
  | nil => rfl
  | cons r rest ih =>
    by_cases h1 : r.status = "pending" <;> by_cases h2 : r.status = "created" <;>
      by_cases h3 : r.status = "running" <;>
      simp_all [pendingView, pending_count, List.filter_cons, List.countP_cons] <;>
      omega

/-- C9: the overview's pending metric counts only `'pending'` and
`'created'` rows while the pending view also includes `'running'` rows, so
whenever the collection contains a running pipeline the metric is strictly
smaller than the size of the pending view. -/
theorem c9_pending_metric_strict (rows : List Row)
    (h : ∃ r ∈ rows, r.status = "running") :
    pending_count rows < (pendingView rows).length := by
  have hsplit := pendingView_length_eq rows
  have hpos : 0 < rows.countP (fun r => r.status == "running") := by
    obtain ⟨r, hr, hs⟩ := h
    exact List.countP_pos_iff.mpr ⟨r, hr, by simp [hs]⟩
  omega

/-- A sample row with a running pipeline. -/
def rowRunning : Row :=
  { project_name := "A", project_id := 1, pipeline_id := 10,
    status := "running", branch := "main", created := "", updated := "",
    web_url := "", user_name := "N/A" }

theorem c9_witness :
    (∃ r ∈ [rowRunning], r.status = "running") ∧
    pending_count [rowRunning] < (pendingView [rowRunning]).length :=
  ⟨⟨rowRunning, by decide, rfl⟩,
   c9_pending_metric_strict [rowRunning] ⟨rowRunning, by decide, rfl⟩⟩

end GitLabPipelineApp
